import Mathlib

/-!
Shallow embedding of the `Groups` React component
(`src/components/Groups.tsx`) of the catan-tracker repository.

The component keeps local state (group name input, error message, player
search, list of selected players, list of the user's groups) and talks to a
Supabase backend.  We model:

  * the local component state as a structure `ComponentState`;
  * every backend interaction as an abstract environment record holding the
    results the backend would return (session, query data, insert outcomes);
  * each handler (`fetchUserGroups`, `fetchPlayers`, `handleAddPlayer`,
    `handleRemovePlayer`, `closeModal`, `handleCreateGroup`) as a pure
    function from state and environment to the new state, paired with the
    list of backend operations (`DbOp`) it issued, in order.

JavaScript string truthiness (`if (player.user_id)`, `if (!groupName)`)
is modelled as the string being non-empty, and `x || null` on an optional
string as mapping both `null`/missing and `""` to `none` (`jsOrNull`).
-/

namespace CatanGroups

/-- A row of the `players` table as the component sees it
(TS type `Player`): `user_id` is a string, falsy when empty;
`avatar_url` is optional/nullable. -/
structure Player where
  id : String
  user_id : String
  name : String
  avatar_url : Option String := none
  deriving DecidableEq, Repr

/-- The `players ( id, name )` sub-object returned inside the nested
group queries of `fetchUserGroups`. -/
structure PlayerLite where
  id : String
  name : String
  deriving DecidableEq, Repr

/-- A `group_players ( player_id, players ( id, name ) )` item inside the
nested group queries. -/
structure GroupPlayerItem where
  player_id : String
  players : PlayerLite
  deriving DecidableEq, Repr

/-- A raw group row as returned by the two read queries of
`fetchUserGroups`, before the component extracts the `players` field.
`group_players` is `none` when the relation is absent/not an array. -/
structure RawGroup where
  id : Nat
  name : String
  owner_id : Option String := none
  created_at : Option String := none
  group_players : Option (List GroupPlayerItem) := none
  deriving DecidableEq, Repr

/-- A row of the member query: `group_id, groups ( ... )`. -/
structure MemberRow where
  group_id : Nat
  groups : RawGroup
  deriving DecidableEq, Repr

/-- A processed group as stored in the `userGroups` state
(TS type `Group` with the added `players` field). -/
structure Group where
  id : Nat
  name : String
  owner_id : Option String := none
  created_at : Option String := none
  players : List PlayerLite := []
  deriving DecidableEq, Repr

/-- A row of the `users` table used for the avatar lookup;
`avatar_url` is nullable. -/
structure UserRow where
  avatar_url : Option String
  deriving DecidableEq, Repr

/-- The local state of the `Groups` component (`useState` hooks). -/
structure ComponentState where
  isModalOpen : Bool := false
  groupName : String := ""
  errorMessage : String := ""
  searchQuery : String := ""
  players : List Player := []
  selectedPlayers : List Player := []
  loading : Bool := false
  userGroups : List Group := []
  deriving DecidableEq, Repr

/-- The initial state of the component: every hook starts empty/false. -/
def initialState : ComponentState := {}

/-- One backend operation issued through the Supabase client.  The
component can only issue the operations below; `updateRows` and
`deleteRows` exist in the vocabulary (the client offers them) but, as the
theorems show, are never emitted by any handler. -/
inductive DbOp where
  | getSession
  | selectGroupsByOwner (ownerId : String)
  | selectGroupPlayersByPlayer (playerId : String)
  | selectPlayers (query : String)
  | selectUserAvatar (userId : String)
  | insertGroups (rows : List (String × String))
  | insertGroupPlayers (rows : List (Nat × String))
  | updateRows (table : String)
  | deleteRows (table : String)
  deriving DecidableEq, Repr

/-- The kind of a backend operation. -/
inductive DbKind where
  | select
  | insert
  | update
  | delete
  | getSession
  deriving DecidableEq, Repr

/-- Classify a backend operation. -/
def DbOp.kind : DbOp → DbKind
  | .getSession => .getSession
  | .selectGroupsByOwner _ => .select
  | .selectGroupPlayersByPlayer _ => .select
  | .selectPlayers _ => .select
  | .selectUserAvatar _ => .select
  | .insertGroups _ => .insert
  | .insertGroupPlayers _ => .insert
  | .updateRows _ => .update
  | .deleteRows _ => .delete

/-- Whether an operation is an insert. -/
def DbOp.isInsert : DbOp → Bool
  | .insertGroups _ => true
  | .insertGroupPlayers _ => true
  | _ => false

/-- Result of `supabase.auth.getSession()`. -/
inductive SessionRes where
  | sessionError
  | noSession
  | ok (userId : String)
  deriving DecidableEq, Repr

/-- Backend results consumed by `fetchUserGroups`: the session, the data of
the owner-groups query and of the member-groups query (`none` models a
query error, where `data` is null). -/
structure FetchGroupsEnv where
  session : SessionRes
  ownerGroups : Option (List RawGroup) := none
  memberGroups : Option (List MemberRow) := none

/-- Model of `memberGroups ? memberGroups.map(item => item.groups) : []`. -/
def memberGroupListOf (memberGroups : Option (List MemberRow)) : List RawGroup :=
  match memberGroups with
  | some rows => rows.map MemberRow.groups
  | none => []

/-- Model of `ownerGroups ? [...ownerGroups, ...memberGroupList] : memberGroupList`. -/
def allGroupsOf (ownerGroups : Option (List RawGroup))
    (memberGroups : Option (List MemberRow)) : List RawGroup :=
  match ownerGroups with
  | some og => og ++ memberGroupListOf memberGroups
  | none => memberGroupListOf memberGroups

/-- One step of the deduplicating `reduce`: push the group only if no
accumulated group has the same id. -/
def dedupStep (acc : List RawGroup) (g : RawGroup) : List RawGroup :=
  if acc.any (fun g2 => g2.id == g.id) then acc else acc ++ [g]

/-- The deduplicated group list (`allGroups.reduce(..., [])`). -/
def uniqueGroupsOf (ownerGroups : Option (List RawGroup))
    (memberGroups : Option (List MemberRow)) : List RawGroup :=
  (allGroupsOf ownerGroups memberGroups).foldl dedupStep []

/-- Extract the joined players of one raw group into the dedicated
`players` property (`groupsWithPlayers` map). -/
def rawToGroup (g : RawGroup) : Group :=
  { id := g.id
    name := g.name
    owner_id := g.owner_id
    created_at := g.created_at
    players :=
      match g.group_players with
      | some gps => gps.map GroupPlayerItem.players
      | none => [] }

/-- Model of `fetchUserGroups`: gets the session, returns unchanged on session
error / missing session, otherwise runs the two read queries, merges and
deduplicates them, extracts the players, and stores the result in
`userGroups`. -/
def fetchUserGroups (s : ComponentState) (env : FetchGroupsEnv) :
    ComponentState × List DbOp :=
  match env.session with
  | .sessionError => (s, [DbOp.getSession])
  | .noSession => (s, [DbOp.getSession])
  | .ok userId =>
    let groupsWithPlayers :=
      (uniqueGroupsOf env.ownerGroups env.memberGroups).map rawToGroup
    ({ s with userGroups := groupsWithPlayers },
     [DbOp.getSession, DbOp.selectGroupsByOwner userId,
      DbOp.selectGroupPlayersByPlayer userId])

/-- Backend results consumed by `fetchPlayers`: the data of the players
query (`none` models an error) and the per-user `users` lookup
(`none` when `.single()` yields no row). -/
structure FetchPlayersEnv where
  queryResult : Option (List Player) := none
  userLookup : String → Option UserRow := fun _ => none

/-- JavaScript `x || null` on a nullable string: both null/missing and
the empty string collapse to `none`. -/
def jsOrNull : Option String → Option String
  | some a => if a = "" then none else some a
  | none => none

/-- The avatar resolution applied to one player inside `fetchPlayers`:
when `player.user_id` is truthy, look the user up and set
`avatar_url := userData?.avatar_url || null`; otherwise return the player
unchanged. -/
def resolveAvatar (lookup : String → Option UserRow) (p : Player) : Player :=
  if p.user_id ≠ "" then
    { p with avatar_url := jsOrNull ((lookup p.user_id).bind UserRow.avatar_url) }
  else p

/-- Model of `fetchPlayers`: runs the players query (with the optional name
filter), and on success resolves each player's avatar via a secondary
lookup and stores the list in `players`; on error the state is unchanged
(only `loading` toggles, net effect none). -/
def fetchPlayers (s : ComponentState) (env : FetchPlayersEnv) (query : String) :
    ComponentState × List DbOp :=
  match env.queryResult with
  | none => ({ s with loading := false }, [DbOp.selectPlayers query])
  | some data =>
    ({ s with
        loading := false
        players := data.map (resolveAvatar env.userLookup) },
     DbOp.selectPlayers query ::
       (data.filter (fun p => p.user_id ≠ "")).map
         (fun p => DbOp.selectUserAvatar p.user_id))

/-- Model of `closeModal`: closes the modal and resets name, search and selection. -/
def closeModal (s : ComponentState) : ComponentState :=
  { s with
      isModalOpen := false
      groupName := ""
      searchQuery := ""
      selectedPlayers := [] }

/-- Model of `handleAddPlayer`: appends the player unless one with the same id is
already selected. -/
def handleAddPlayer (s : ComponentState) (p : Player) : ComponentState :=
  if s.selectedPlayers.any (fun q => q.id == p.id) then s
  else { s with selectedPlayers := s.selectedPlayers ++ [p] }

/-- Model of `handleRemovePlayer`: keeps exactly the selected players whose id
differs from the given one. -/
def handleRemovePlayer (s : ComponentState) (playerId : String) : ComponentState :=
  { s with selectedPlayers := s.selectedPlayers.filter (fun p => p.id != playerId) }

/-- JavaScript `String.prototype.toLowerCase()`: lowercase every character. -/
def jsToLower (s : String) : String :=
  ⟨s.data.map Char.toLower⟩

/-- JavaScript `String.prototype.trim()`: strip whitespace from both ends. -/
def jsTrim (s : String) : String :=
  ⟨((s.data.dropWhile Char.isWhitespace).reverse.dropWhile Char.isWhitespace).reverse⟩

/-- The duplicate-name test of `handleCreateGroup`:
`userGroups.some(g => g.name.trim().toLowerCase() === groupName.trim().toLowerCase())`. -/
def hasDuplicateName (userGroups : List Group) (groupName : String) : Bool :=
  userGroups.any (fun g => jsToLower (jsTrim g.name) == jsToLower (jsTrim groupName))

/-- Backend results consumed by `handleCreateGroup`: the session, the
outcome of the group insert (`Except.ok` carries the new group id taken
from `groupData[0].id`), the outcome of the join insert, and the
environment of the final `fetchUserGroups` refresh. -/
structure CreateGroupEnv where
  session : SessionRes
  groupInsert : Except Unit Nat := .error ()
  joinInsert : Except Unit Unit := .ok ()
  refresh : FetchGroupsEnv := { session := .noSession }

/-- Model of `handleCreateGroup`, line for line: empty-name check, duplicate-name
check, clear error, get session (two failure branches), insert the group
row, on failure report and stop; otherwise insert one join row per
selected player when any are selected (on failure set the best-effort
message, without returning), then clear the error, close the modal and
refresh the groups list. -/
def handleCreateGroup (s : ComponentState) (env : CreateGroupEnv) :
    ComponentState × List DbOp :=
  if s.groupName = "" then
    ({ s with errorMessage := "Please enter a group name." }, [])
  else if hasDuplicateName s.userGroups s.groupName then
    ({ s with errorMessage :=
        "You are already in a group with that name. Please choose a different name." },
     [])
  else
    let s1 := { s with errorMessage := "" }
    match env.session with
    | .sessionError =>
      ({ s1 with errorMessage := "Error retrieving session. Please try again." },
       [DbOp.getSession])
    | .noSession =>
      ({ s1 with errorMessage := "No session found. Please sign in again." },
       [DbOp.getSession])
    | .ok ownerId =>
      match env.groupInsert with
      | .error _ =>
        ({ s1 with errorMessage := "Failed to create group. Please try again." },
         [DbOp.getSession, DbOp.insertGroups [(s.groupName, ownerId)]])
      | .ok groupId =>
        let joinPhase : ComponentState × List DbOp :=
          if s.selectedPlayers.length > 0 then
            let rows := s.selectedPlayers.map (fun p => (groupId, p.id))
            match env.joinInsert with
            | .error _ =>
              ({ s1 with errorMessage :=
                  "Group created, but failed to add some players." },
               [DbOp.insertGroupPlayers rows])
            | .ok _ => (s1, [DbOp.insertGroupPlayers rows])
          else (s1, [])
        let s3 := closeModal { joinPhase.1 with errorMessage := "" }
        let refreshed := fetchUserGroups s3 env.refresh
        (refreshed.1,
         [DbOp.getSession, DbOp.insertGroups [(s.groupName, ownerId)]]
           ++ joinPhase.2 ++ refreshed.2)

/-! ### Concrete sample values used to instantiate the theorems -/

/-- A sample player row. -/
def samplePlayer : Player :=
  { id := "p1", user_id := "u1", name := "Alice" }

/-- A sample player row with a falsy (empty) `user_id`. -/
def samplePlayerNoUser : Player :=
  { id := "p2", user_id := "", name := "Bob" }

/-- A sample stored group. -/
def sampleGroup : Group :=
  { id := 1, name := "Friends" }

/-- A state whose entered name duplicates an existing group's name up to
trimming and case. -/
def dupState : ComponentState :=
  { initialState with
      isModalOpen := true
      groupName := "FRIENDS "
      userGroups := [sampleGroup] }

/-- A fully successful backend environment for `handleCreateGroup`. -/
def okCreateEnv : CreateGroupEnv :=
  { session := .ok "owner1"
    groupInsert := .ok 7
    joinInsert := .ok ()
    refresh := { session := .noSession } }

/-- A state about to create the group `"Catan Night"` with one selected
player. -/
def createState : ComponentState :=
  { initialState with
      isModalOpen := true
      groupName := "Catan Night"
      selectedPlayers := [samplePlayer] }

/-- An environment where the group insert succeeds (new id 5) but the
join insert fails. -/
def joinFailEnv : CreateGroupEnv :=
  { session := .ok "owner1"
    groupInsert := .ok 5
    joinInsert := .error ()
    refresh := { session := .noSession } }

/-- A state whose entered group name is whitespace-only. -/
def wsState : ComponentState :=
  { initialState with
      isModalOpen := true
      groupName := "   "
      userGroups := [sampleGroup] }

/-- An environment with no session at all. -/
def noSessionEnv : FetchGroupsEnv := { session := .noSession }

/-- Raw group rows and a member row producing an overlap between the two
read queries. -/
def rawGroupA : RawGroup := { id := 1, name := "G1" }

def rawGroupB : RawGroup := { id := 2, name := "G2" }

def memberRowA : MemberRow := { group_id := 1, groups := rawGroupA }

/-- An environment whose owner query and member query overlap on group 1. -/
def mergeEnv : FetchGroupsEnv :=
  { session := .ok "u0"
    ownerGroups := some [rawGroupA, rawGroupB]
    memberGroups := some [memberRowA] }

/-- A users-table lookup returning an empty-string avatar for `"u1"`. -/
def avatarLookupEmpty : String → Option UserRow :=
  fun uid => if uid = "u1" then some { avatar_url := some "" } else none

/-- A players-query environment pairing `samplePlayer` with the
empty-string avatar lookup. -/
def avatarEnvEmpty : FetchPlayersEnv :=
  { queryResult := some [samplePlayer]
    userLookup := avatarLookupEmpty }

/-- A state with one selected player. -/
def selState : ComponentState :=
  { initialState with selectedPlayers := [samplePlayer] }

end CatanGroups

namespace CatanGroups

/-! ### Helper lemmas (shared) -/

theorem hasDuplicateName_iff (gs : List Group) (n : String) :
    hasDuplicateName gs n = true ↔
      ∃ g ∈ gs, jsToLower (jsTrim g.name) = jsToLower (jsTrim n) := by
  simp [hasDuplicateName, List.any_eq_true]

theorem fetchUserGroups_fst_errorMessage (s : ComponentState) (env : FetchGroupsEnv) :
    ((fetchUserGroups s env).1).errorMessage = s.errorMessage := by
  rcases env with ⟨sess, og, mg⟩
  cases sess <;> rfl

theorem fetchUserGroups_snd_no_insert (s : ComponentState) (env : FetchGroupsEnv) :
    ((fetchUserGroups s env).2).filter DbOp.isInsert = [] := by
  rcases env with ⟨sess, og, mg⟩
  cases sess <;> rfl

/-- On the path where name and duplicate checks pass, the session is
present and the group insert succeeds, `handleCreateGroup` ends in the
state produced by the refresh after closing the modal, and its trace is
the session call, the group insert, the optional join insert, and the
refresh's operations. -/
theorem handleCreateGroup_ok_eq (s : ComponentState) (env : CreateGroupEnv)
    (uid : String) (gid : Nat)
    (hg : ¬ s.groupName = "")
    (hd : hasDuplicateName s.userGroups s.groupName = false)
    (hs : env.session = .ok uid) (hi : env.groupInsert = .ok gid) :
    handleCreateGroup s env =
      ((fetchUserGroups (closeModal { s with errorMessage := "" }) env.refresh).1,
       [DbOp.getSession, DbOp.insertGroups [(s.groupName, uid)]]
         ++ (if s.selectedPlayers.length > 0
             then [DbOp.insertGroupPlayers
                     (s.selectedPlayers.map (fun p => (gid, p.id)))]
             else [])
         ++ (fetchUserGroups (closeModal { s with errorMessage := "" })
               env.refresh).2) := by
  rcases env with ⟨sess, gi, ji, re⟩
  simp only at hs hi
  subst hs; subst hi
  by_cases hl : s.selectedPlayers.length > 0
  · cases ji <;> simp [handleCreateGroup, hg, hd, hl, closeModal]
  · simp [handleCreateGroup, hg, hd, hl, closeModal]

/-- On the same path with a failing group insert, `handleCreateGroup`
reports the failure and its trace is the session call and the single
group insert. -/
theorem handleCreateGroup_insert_error_eq (s : ComponentState) (env : CreateGroupEnv)
    (uid : String) (e : Unit)
    (hg : ¬ s.groupName = "")
    (hd : hasDuplicateName s.userGroups s.groupName = false)
    (hs : env.session = .ok uid) (hi : env.groupInsert = .error e) :
    handleCreateGroup s env =
      ({ s with errorMessage := "Failed to create group. Please try again." },
       [DbOp.getSession, DbOp.insertGroups [(s.groupName, uid)]]) := by
  rcases env with ⟨sess, gi, ji, re⟩
  simp only at hs hi
  subst hs; subst hi
  simp [handleCreateGroup, hg, hd]

theorem rawToGroup_id (g : RawGroup) : (rawToGroup g).id = g.id := rfl

/-- A group id is in the deduplicated accumulation iff it is in the
accumulator or in the remaining list. -/
theorem mem_ids_foldl_dedupStep (l acc : List RawGroup) (x : Nat) :
    x ∈ (l.foldl dedupStep acc).map RawGroup.id ↔
      x ∈ acc.map RawGroup.id ∨ x ∈ l.map RawGroup.id := by
  induction l generalizing acc with
  | nil => simp
  | cons g l ih =>
    have hstep : x ∈ (dedupStep acc g).map RawGroup.id ↔
        (x ∈ acc.map RawGroup.id ∨ x = g.id) := by
      by_cases hany : acc.any (fun g2 => g2.id == g.id)
      · have hmem : g.id ∈ acc.map RawGroup.id := by
          rcases List.any_eq_true.1 hany with ⟨g2, hg2, hbeq⟩
          have hid : g2.id = g.id := by simpa using hbeq
          exact hid ▸ List.mem_map_of_mem RawGroup.id hg2
        simp only [dedupStep, hany, if_true]
        constructor
        · exact Or.inl
        · rintro (h | rfl)
          · exact h
          · exact hmem
      · simp [dedupStep, hany]
    simp only [List.foldl_cons, ih, hstep, List.map_cons, List.mem_cons]
    tauto

/-- The deduplicating fold never produces two entries with the same id. -/
theorem nodup_ids_foldl_dedupStep (l acc : List RawGroup)
    (h : (acc.map RawGroup.id).Nodup) :
    ((l.foldl dedupStep acc).map RawGroup.id).Nodup := by
  induction l generalizing acc with
  | nil => simpa using h
  | cons g l ih =>
    simp only [List.foldl_cons]
    apply ih
    by_cases hany : acc.any (fun g2 => g2.id == g.id)
    · simpa [dedupStep, hany] using h
    · have hnot : g.id ∉ acc.map RawGroup.id := by
        intro hc
        rcases List.mem_map.1 hc with ⟨g2, hg2, hid⟩
        have hb : (g2.id == g.id) = true := by simp [hid]
        exact hany (List.any_eq_true.2 ⟨g2, hg2, hb⟩)
      simp [dedupStep, hany, List.nodup_append, h, hnot]

/-! ### Claims -/

/-- C1: if the entered group name, after trimming and lowercasing, equals
the trimmed lowercased name of some group in the user's current group
list (the duplicate test of the code), then `handleCreateGroup` sets an
error message and returns without issuing any backend operation, in
particular no insert. -/
theorem claim1_duplicate_name_rejected
    (s : ComponentState) (env : CreateGroupEnv)
    (h : ∃ g ∈ s.userGroups,
        jsToLower (jsTrim g.name) = jsToLower (jsTrim s.groupName)) :
    (handleCreateGroup s env).1.errorMessage ≠ "" ∧
      (handleCreateGroup s env).2 = [] := by
  have hd : hasDuplicateName s.userGroups s.groupName = true :=
    (hasDuplicateName_iff _ _).2 h
  by_cases hg : s.groupName = ""
  · refine ⟨?_, by simp [handleCreateGroup, hg]⟩
    simp [handleCreateGroup, hg]
  · refine ⟨?_, by simp [handleCreateGroup, hg, hd]⟩
    simp [handleCreateGroup, hg, hd]

/-- Witness for C1: a concrete state whose entered name `"FRIENDS "`
duplicates the existing group `"Friends"`. -/
theorem claim1_witness :
    (handleCreateGroup dupState okCreateEnv).1.errorMessage ≠ "" ∧
      (handleCreateGroup dupState okCreateEnv).2 = [] :=
  claim1_duplicate_name_rejected dupState okCreateEnv
    ⟨sampleGroup, by decide, by decide⟩

/-- C5: whenever `handleCreateGroup` stops before the group insert
(empty name, duplicate name, session error, or missing session), it sets
an error message, performs no backend write (no insert appears in its
trace), and leaves the entered group name and the selected players
unchanged. -/
theorem claim5_early_stop_atomic
    (s : ComponentState) (env : CreateGroupEnv)
    (h : s.groupName = "" ∨
         hasDuplicateName s.userGroups s.groupName = true ∨
         env.session = .sessionError ∨ env.session = .noSession) :
    (handleCreateGroup s env).1.errorMessage ≠ "" ∧
      ((handleCreateGroup s env).2.filter DbOp.isInsert = []) ∧
      (handleCreateGroup s env).1.groupName = s.groupName ∧
      (handleCreateGroup s env).1.selectedPlayers = s.selectedPlayers := by
  by_cases hg : s.groupName = ""
  · refine ⟨?_, ?_, ?_, ?_⟩ <;> simp [handleCreateGroup, hg]
  · by_cases hd : hasDuplicateName s.userGroups s.groupName = true
    · refine ⟨?_, ?_, ?_, ?_⟩ <;> simp [handleCreateGroup, hg, hd]
    · have hd' : hasDuplicateName s.userGroups s.groupName = false := by
        simpa using hd
      rcases h with h | h | h | h
      · exact absurd h hg
      · exact absurd h hd
      · rcases env with ⟨sess, gi, ji, re⟩
        simp only at h
        subst h
        refine ⟨?_, ?_, ?_, ?_⟩ <;>
          simp [handleCreateGroup, hg, hd', DbOp.isInsert]
      · rcases env with ⟨sess, gi, ji, re⟩
        simp only at h
        subst h
        refine ⟨?_, ?_, ?_, ?_⟩ <;>
          simp [handleCreateGroup, hg, hd', DbOp.isInsert]

/-- C2: on the write path, `handleCreateGroup` issues a two-step insert
in a fixed order: first exactly one `groups` row carrying the entered
name and the session user's id; only if that insert succeeds and the
selected-players list is non-empty, one `group_players` row per selected
player pairing the new group id with that player's id; if the group
insert fails, no join rows are inserted. -/
theorem claim2_two_step_insert
    (s : ComponentState) (env : CreateGroupEnv) (uid : String)
    (hg : ¬ s.groupName = "")
    (hd : hasDuplicateName s.userGroups s.groupName = false)
    (hs : env.session = .ok uid) :
    (∀ e : Unit, env.groupInsert = .error e →
        (handleCreateGroup s env).2.filter DbOp.isInsert =
          [DbOp.insertGroups [(s.groupName, uid)]]) ∧
      (∀ gid : Nat, env.groupInsert = .ok gid →
        (handleCreateGroup s env).2.filter DbOp.isInsert =
          DbOp.insertGroups [(s.groupName, uid)] ::
            (if s.selectedPlayers.length > 0
             then [DbOp.insertGroupPlayers
                     (s.selectedPlayers.map (fun p => (gid, p.id)))]
             else [])) := by
  constructor
  · intro e he
    rw [handleCreateGroup_insert_error_eq s env uid e hg hd hs he]
    rfl
  · intro gid hgid
    rw [handleCreateGroup_ok_eq s env uid gid hg hd hs hgid]
    by_cases hl : s.selectedPlayers.length > 0 <;>
      simp [hl, List.filter_append, fetchUserGroups_snd_no_insert,
        DbOp.isInsert]

/-- Witness for C2: creating `"Catan Night"` with one selected player in
a fully successful environment yields exactly the group insert followed
by the single join insert. -/
theorem claim2_witness :
    (handleCreateGroup createState okCreateEnv).2.filter DbOp.isInsert =
      [DbOp.insertGroups [("Catan Night", "owner1")],
       DbOp.insertGroupPlayers [(7, "p1")]] := by
  have h := (claim2_two_step_insert createState okCreateEnv "owner1"
    (by decide) (by decide) rfl).2 7 rfl
  exact h.trans (by decide)

/-- C3 is contradicted by the code: when the group insert succeeds and
the join insert fails, `handleCreateGroup` does set the message
"Group created, but failed to add some players.", but execution then
falls through to `setErrorMessage("")` and `closeModal()`, so the
operation finishes with an empty error message and a closed modal — the
user never sees the best-effort message.  This evaluation exhibits the
final state and trace at such an input. -/
theorem claim3_join_error_message_cleared :
    (handleCreateGroup createState joinFailEnv).1.errorMessage = "" ∧
      (handleCreateGroup createState joinFailEnv).1.isModalOpen = false ∧
      (handleCreateGroup createState joinFailEnv).2 =
        [DbOp.getSession, DbOp.insertGroups [("Catan Night", "owner1")],
         DbOp.insertGroupPlayers [(5, "p1")], DbOp.getSession] := by
  decide

/-- C9: the empty-name check rejects exactly the empty string: a
whitespace-only name passes it and, provided no existing group's trimmed
lowercased name is empty and a session is present, proceeds all the way
to the group insert. -/
theorem claim9_whitespace_name_proceeds
    (s : ComponentState) (env : CreateGroupEnv) (uid : String)
    (h1 : ¬ s.groupName = "") (h2 : jsTrim s.groupName = "")
    (h3 : ∀ g ∈ s.userGroups, ¬ jsToLower (jsTrim g.name) = "")
    (h4 : env.session = .ok uid) :
    (handleCreateGroup s env).1.errorMessage ≠ "Please enter a group name." ∧
      DbOp.insertGroups [(s.groupName, uid)] ∈ (handleCreateGroup s env).2 := by
  have hlow : jsToLower (jsTrim s.groupName) = "" := by rw [h2]; rfl
  have hd : hasDuplicateName s.userGroups s.groupName = false := by
    simp only [hasDuplicateName, hlow, List.any_eq_false, beq_iff_eq]
    exact h3
  rcases hgi : env.groupInsert with e | gid
  · rw [handleCreateGroup_insert_error_eq s env uid e h1 hd h4 hgi]
    constructor
    · simp
    · simp
  · rw [handleCreateGroup_ok_eq s env uid gid h1 hd h4 hgi]
    constructor
    · rw [fetchUserGroups_fst_errorMessage]
      simp [closeModal]
    · simp

/-- Witness for C9: the whitespace-only name `"   "` proceeds to the
group insert. -/
theorem claim9_witness :
    (handleCreateGroup wsState okCreateEnv).1.errorMessage ≠
        "Please enter a group name." ∧
      DbOp.insertGroups [("   ", "owner1")] ∈
        (handleCreateGroup wsState okCreateEnv).2 :=
  claim9_whitespace_name_proceeds wsState okCreateEnv "owner1"
    (by decide) (by decide) (by decide) rfl

/-- C4: when a session is present, `fetchUserGroups` stores a group list
deduplicated by id — at most one entry per group id — and every group id
appearing in either query result (owner query, or group reached through a
member-query row) appears in it. -/
theorem claim4_merge_dedup
    (s : ComponentState) (env : FetchGroupsEnv) (uid : String)
    (h : env.session = .ok uid) :
    (((fetchUserGroups s env).1.userGroups).map Group.id).Nodup ∧
      (∀ og, env.ownerGroups = some og → ∀ g ∈ og,
        g.id ∈ ((fetchUserGroups s env).1.userGroups).map Group.id) ∧
      (∀ mg, env.memberGroups = some mg → ∀ r ∈ mg,
        r.groups.id ∈ ((fetchUserGroups s env).1.userGroups).map Group.id) := by
  rcases env with ⟨sess, ogs, mgs⟩
  simp only at h
  subst h
  have hmap :
      ((fetchUserGroups s ⟨.ok uid, ogs, mgs⟩).1.userGroups).map Group.id =
        (uniqueGroupsOf ogs mgs).map RawGroup.id := by
    simp [fetchUserGroups, List.map_map, Function.comp_def, rawToGroup_id]
  refine ⟨?_, ?_, ?_⟩
  · rw [hmap]
    exact nodup_ids_foldl_dedupStep _ [] (by simp)
  · intro og hog g hg
    simp only at hog
    subst hog
    rw [hmap]
    refine (mem_ids_foldl_dedupStep _ _ _).2 (Or.inr ?_)
    simp only [allGroupsOf, List.map_append, List.mem_append]
    exact Or.inl (List.mem_map_of_mem RawGroup.id hg)
  · intro mg hmg r hr
    simp only at hmg
    subst hmg
    rw [hmap]
    refine (mem_ids_foldl_dedupStep _ _ _).2 (Or.inr ?_)
    rcases ogs with _ | og <;>
      simp only [allGroupsOf, memberGroupListOf, List.map_append,
        List.mem_append, List.map_map]
    · exact List.mem_map_of_mem (RawGroup.id ∘ MemberRow.groups) hr
    · exact Or.inr (List.mem_map_of_mem (RawGroup.id ∘ MemberRow.groups) hr)

/-- Witness for C4: with an owner list `[group 1, group 2]` and a member
row reaching group 1 again, the stored ids are without duplicates and
both queried ids appear. -/
theorem claim4_witness :
    (((fetchUserGroups initialState mergeEnv).1.userGroups).map Group.id).Nodup ∧
      rawGroupB.id ∈
        ((fetchUserGroups initialState mergeEnv).1.userGroups).map Group.id ∧
      memberRowA.groups.id ∈
        ((fetchUserGroups initialState mergeEnv).1.userGroups).map Group.id := by
  have h := claim4_merge_dedup initialState mergeEnv "u0" rfl
  exact ⟨h.1, h.2.1 [rawGroupA, rawGroupB] rfl rawGroupB (by decide),
    h.2.2 [memberRowA] rfl memberRowA (by decide)⟩

theorem fetchUserGroups_ops_not_mutating (s : ComponentState)
    (env : FetchGroupsEnv) :
    ∀ op ∈ (fetchUserGroups s env).2,
      op.kind ≠ DbKind.update ∧ op.kind ≠ DbKind.delete := by
  intro op hop
  rcases env with ⟨sess, ogs, mgs⟩
  cases sess with
  | sessionError =>
    simp [fetchUserGroups] at hop
    subst hop
    exact ⟨by simp [DbOp.kind], by simp [DbOp.kind]⟩
  | noSession =>
    simp [fetchUserGroups] at hop
    subst hop
    exact ⟨by simp [DbOp.kind], by simp [DbOp.kind]⟩
  | ok uid =>
    simp [fetchUserGroups] at hop
    rcases hop with rfl | rfl | rfl <;>
      exact ⟨by simp [DbOp.kind], by simp [DbOp.kind]⟩

theorem fetchPlayers_ops_not_mutating (s : ComponentState)
    (env : FetchPlayersEnv) (q : String) :
    ∀ op ∈ (fetchPlayers s env q).2,
      op.kind ≠ DbKind.update ∧ op.kind ≠ DbKind.delete := by
  intro op hop
  rcases env with ⟨qr, lk⟩
  cases qr with
  | none =>
    simp [fetchPlayers] at hop
    subst hop
    exact ⟨by simp [DbOp.kind], by simp [DbOp.kind]⟩
  | some data =>
    simp [fetchPlayers] at hop
    rcases hop with rfl | ⟨p, hp, rfl⟩
    · exact ⟨by simp [DbOp.kind], by simp [DbOp.kind]⟩
    · exact ⟨by simp [DbOp.kind], by simp [DbOp.kind]⟩

theorem handleCreateGroup_ops_not_mutating (s : ComponentState)
    (env : CreateGroupEnv) :
    ∀ op ∈ (handleCreateGroup s env).2,
      op.kind ≠ DbKind.update ∧ op.kind ≠ DbKind.delete := by
  intro op hop
  by_cases hg : s.groupName = ""
  · simp [handleCreateGroup, hg] at hop
  · by_cases hd : hasDuplicateName s.userGroups s.groupName
    · simp [handleCreateGroup, hg, hd] at hop
    · have hd' : hasDuplicateName s.userGroups s.groupName = false := by
        simpa using hd
      cases hsess : env.session with
      | sessionError =>
        simp [handleCreateGroup, hg, hd', hsess] at hop
        subst hop
        exact ⟨by simp [DbOp.kind], by simp [DbOp.kind]⟩
      | noSession =>
        simp [handleCreateGroup, hg, hd', hsess] at hop
        subst hop
        exact ⟨by simp [DbOp.kind], by simp [DbOp.kind]⟩
      | ok uid =>
        cases hgi : env.groupInsert with
        | error e =>
          rw [handleCreateGroup_insert_error_eq s env uid e hg hd' hsess hgi]
            at hop
          simp at hop
          rcases hop with rfl | rfl <;>
            exact ⟨by simp [DbOp.kind], by simp [DbOp.kind]⟩
        | ok gid =>
          rw [handleCreateGroup_ok_eq s env uid gid hg hd' hsess hgi] at hop
          rw [List.mem_append] at hop
          rcases hop with hop | hop
          · rw [List.mem_append] at hop
            rcases hop with hop | hop
            · simp at hop
              rcases hop with rfl | rfl <;>
                exact ⟨by simp [DbOp.kind], by simp [DbOp.kind]⟩
            · by_cases hl : s.selectedPlayers.length > 0
              · simp [hl] at hop
                subst hop
                exact ⟨by simp [DbOp.kind], by simp [DbOp.kind]⟩
              · simp [hl] at hop
          · exact fetchUserGroups_ops_not_mutating _ _ op hop

/-- C6: every backend operation issued by any handler of the component
(`fetchUserGroups`, `fetchPlayers`, `handleCreateGroup`) is a read
(select / session read) or an insert; none is an update or a delete, so
no existing row is modified or removed. -/
theorem claim6_reads_and_inserts_only
    (s : ComponentState) (fe : FetchGroupsEnv) (pe : FetchPlayersEnv)
    (q : String) (ce : CreateGroupEnv) (op : DbOp)
    (h : op ∈ (fetchUserGroups s fe).2 ∨ op ∈ (fetchPlayers s pe q).2 ∨
         op ∈ (handleCreateGroup s ce).2) :
    (op.kind = DbKind.select ∨ op.kind = DbKind.insert ∨
        op.kind = DbKind.getSession) ∧
      op.kind ≠ DbKind.update ∧ op.kind ≠ DbKind.delete := by
  have hnm : op.kind ≠ DbKind.update ∧ op.kind ≠ DbKind.delete := by
    rcases h with h | h | h
    · exact fetchUserGroups_ops_not_mutating s fe op h
    · exact fetchPlayers_ops_not_mutating s pe q op h
    · exact handleCreateGroup_ops_not_mutating s ce op h
  refine ⟨?_, hnm⟩
  cases hk : op.kind <;> simp_all

/-- Witness for C6 at the session read issued by a refresh without a
session. -/
theorem claim6_witness :
    (DbOp.getSession.kind = DbKind.select ∨
        DbOp.getSession.kind = DbKind.insert ∨
        DbOp.getSession.kind = DbKind.getSession) ∧
      DbOp.getSession.kind ≠ DbKind.update ∧
        DbOp.getSession.kind ≠ DbKind.delete :=
  claim6_reads_and_inserts_only initialState noSessionEnv {} "" okCreateEnv
    DbOp.getSession (Or.inl (by decide))

/-- Counterexample to C7 as stated: for a player whose owning user's
row carries the empty-string avatar, the code stores `null`
(`userData?.avatar_url || null` is falsy on `""`), not the row's
avatar value. -/
theorem claim7_counterexample :
    (avatarLookupEmpty "u1").bind UserRow.avatar_url = some "" ∧
      (fetchPlayers initialState avatarEnvEmpty "").1.players =
        [{ samplePlayer with avatar_url := none }] ∧
      (fetchPlayers initialState avatarEnvEmpty "").1.players ≠
        [{ samplePlayer with avatar_url := some "" }] := by
  decide

/-- C7 (amended): for every player of the query result, `fetchPlayers`
stores, in the same order and number, the player unchanged when its
owning-user identifier is falsy, and otherwise the player with
`avatar_url` set to the users-table row's avatar URL when that value is
truthy and to null when the lookup yields no row, a null avatar, or an
empty-string avatar. -/
theorem claim7_avatar_resolution
    (s : ComponentState) (env : FetchPlayersEnv) (q : String)
    (data : List Player) (h : env.queryResult = some data) :
    (fetchPlayers s env q).1.players =
      data.map (fun p =>
        if p.user_id ≠ "" then
          { p with avatar_url :=
              jsOrNull ((env.userLookup p.user_id).bind UserRow.avatar_url) }
        else p) ∧
      ((fetchPlayers s env q).1.players).length = data.length := by
  rcases env with ⟨qr, lk⟩
  simp only at h
  subst h
  exact ⟨rfl, by simp [fetchPlayers]⟩

/-- Witness for C7 at the concrete empty-string-avatar environment. -/
theorem claim7_witness :
    (fetchPlayers initialState avatarEnvEmpty "").1.players =
        [{ samplePlayer with avatar_url := none }] ∧
      ((fetchPlayers initialState avatarEnvEmpty "").1.players).length = 1 := by
  have h := claim7_avatar_resolution initialState avatarEnvEmpty ""
    [samplePlayer] rfl
  exact ⟨h.1.trans (by decide), h.2⟩

/-- C8: the selected-players list never contains two entries with the
same player id: the invariant holds in the initial state and is
preserved by `handleAddPlayer`, `handleRemovePlayer` and `closeModal`. -/
theorem claim8_selected_ids_nodup :
    ((initialState.selectedPlayers).map Player.id).Nodup ∧
      ∀ s : ComponentState,
        ((s.selectedPlayers).map Player.id).Nodup →
          (∀ p : Player,
              (((handleAddPlayer s p).selectedPlayers).map Player.id).Nodup) ∧
            (∀ pid : String,
              (((handleRemovePlayer s pid).selectedPlayers).map
                  Player.id).Nodup) ∧
            (((closeModal s).selectedPlayers).map Player.id).Nodup := by
  constructor
  · simp [initialState]
  · intro s hs
    refine ⟨?_, ?_, ?_⟩
    · intro p
      by_cases hany : s.selectedPlayers.any (fun q => q.id == p.id)
      · simpa [handleAddPlayer, hany] using hs
      · have hnot : p.id ∉ s.selectedPlayers.map Player.id := by
          intro hc
          rcases List.mem_map.1 hc with ⟨q, hq, hid⟩
          have hb : (q.id == p.id) = true := by simp [hid]
          exact hany (List.any_eq_true.2 ⟨q, hq, hb⟩)
        simp [handleAddPlayer, hany, List.nodup_append, hs, hnot]
    · intro pid
      have hsub : List.Sublist
          (((handleRemovePlayer s pid).selectedPlayers).map Player.id)
          ((s.selectedPlayers).map Player.id) :=
        List.Sublist.map _ (List.filter_sublist _)
      exact hs.sublist hsub
    · simp [closeModal]

/-- Witness for C8 at a one-element selection. -/
theorem claim8_witness :
    (((handleAddPlayer selState samplePlayerNoUser).selectedPlayers).map
        Player.id).Nodup ∧
      (((handleRemovePlayer selState "p1").selectedPlayers).map
          Player.id).Nodup ∧
      (((closeModal selState).selectedPlayers).map Player.id).Nodup := by
  have h := claim8_selected_ids_nodup.2 selState (by decide)
  exact ⟨h.1 samplePlayerNoUser, h.2.1 "p1", h.2.2⟩

/-- C10: `handleRemovePlayer` keeps exactly the entries whose id differs
from the given id, preserving their relative order (the result is a
sublist); it is the identity when no selected player carries the id; and
adding a not-yet-selected player and then removing their id restores the
original selection. -/
theorem claim10_remove_spec
    (s : ComponentState) (p : Player) (pid : String) :
    (∀ q : Player, q ∈ (handleRemovePlayer s pid).selectedPlayers ↔
        (q ∈ s.selectedPlayers ∧ q.id ≠ pid)) ∧
      List.Sublist ((handleRemovePlayer s pid).selectedPlayers)
        s.selectedPlayers ∧
      ((∀ q ∈ s.selectedPlayers, q.id ≠ pid) →
        handleRemovePlayer s pid = s) ∧
      ((∀ q ∈ s.selectedPlayers, q.id ≠ p.id) →
        handleRemovePlayer (handleAddPlayer s p) p.id = s) := by
  refine ⟨?_, ?_, ?_, ?_⟩
  · intro q
    simp [handleRemovePlayer, List.mem_filter]
  · exact List.filter_sublist _
  · intro hall
    have hself : s.selectedPlayers.filter (fun q => q.id != pid) =
        s.selectedPlayers :=
      List.filter_eq_self.2 (fun a ha => by simpa using hall a ha)
    unfold handleRemovePlayer
    rw [hself]
  · intro hall
    have hany : s.selectedPlayers.any (fun q => q.id == p.id) = false := by
      rw [List.any_eq_false]
      intro q hq
      simpa using hall q hq
    have hfilter : (s.selectedPlayers ++ [p]).filter
        (fun q => q.id != p.id) = s.selectedPlayers := by
      rw [List.filter_append]
      have h1 : s.selectedPlayers.filter (fun q => q.id != p.id) =
          s.selectedPlayers :=
        List.filter_eq_self.2 (fun a ha => by simpa using hall a ha)
      have h2 : ([p].filter (fun q => q.id != p.id)) = [] := by simp
      rw [h1, h2, List.append_nil]
    unfold handleRemovePlayer handleAddPlayer
    rw [hany]
    simp only [Bool.false_eq_true, if_false]
    rw [hfilter]

/-- Witness for C10: removing an absent id is the identity, and an
add-then-remove roundtrip restores the selection. -/
theorem claim10_witness :
    handleRemovePlayer selState "zz" = selState ∧
      handleRemovePlayer (handleAddPlayer selState samplePlayerNoUser)
        samplePlayerNoUser.id = selState := by
  have h := claim10_remove_spec selState samplePlayerNoUser "zz"
  exact ⟨h.2.2.1 (by decide), h.2.2.2 (by decide)⟩

/-- Witness for C5: a concrete state with an empty entered name. -/
theorem claim5_witness :
    (handleCreateGroup initialState okCreateEnv).1.errorMessage ≠ "" ∧
      ((handleCreateGroup initialState okCreateEnv).2.filter DbOp.isInsert = []) ∧
      (handleCreateGroup initialState okCreateEnv).1.groupName =
        initialState.groupName ∧
      (handleCreateGroup initialState okCreateEnv).1.selectedPlayers =
        initialState.selectedPlayers :=
  claim5_early_stop_atomic initialState okCreateEnv (Or.inl (by decide))

end CatanGroups
